import Mathlib

/-!
Verification of the LNsome batch-crawl orchestrator (`src/bot.py`,
`src/sources/en/f/fanmtl.py`) against its natural-language specification.

The development shallowly embeds the code paths that the specification's
claims are about:

* the chapter data model and the integrity-repair pass of
  `scrape_logic_worker` (`bot.py` lines 90-117);
* the size-based delivery routing of `NovelBot.process_novel`
  (`bot.py` lines 494-533) and the persistent job store mutations
  (`save_success`, `save_error`, `process_queue`, `cmd_reset`);
* the zero-chapter detection and chapter-list construction of
  `FanMTLCrawler.read_novel_info` / `parse_chapter_list`;
* the progress-consumption loop of `process_novel` (lines 477-488).

Machine floats appear in the source only as `file_size_mb =
size_bytes / (1024 * 1024)`: division of an integer below 2^53 by a power
of two is exact in binary floating point, so all float comparisons in the
routing code are modelled exactly on byte counts.
-/

namespace LNsome

/-- Whether the first character list starts with the second. -/
def charsStartWith : List Char → List Char → Bool
  | _, [] => true
  | [], _ :: _ => false
  | t :: ts, p :: ps => p == t && charsStartWith ts ps

/-- Whether the pattern occurs somewhere in the text. -/
def charsOccur (pat : List Char) : List Char → Bool
  | [] => charsStartWith [] pat
  | t :: ts => charsStartWith (t :: ts) pat || charsOccur pat ts

/-- Python's substring test `pat in s`, on the character lists of the
two strings. -/
def containsSubstr (s pat : String) : Bool :=
  charsOccur pat.data s.data

/-- Python's `str.lower()` on the character list of the string. -/
def lowerString (s : String) : String :=
  { data := s.data.map Char.toLower }

/-- Chapter record (`lncrawl.models.Chapter`) as `bot.py` and
`fanmtl.py` use it: `id` is the sequence number assigned at discovery
time; `body` is `none` until fetched. -/
structure Chapter where
  id : Nat
  volume : Nat
  url : String
  title : String
  body : Option String
  deriving Repr, DecidableEq

/-! ## Integrity repair (`scrape_logic_worker`, bot.py lines 104-109) -/

/-- The degraded test of bot.py line 104/108:
`not c.body or len(c.body.strip()) < 20`. A missing body and a falsy
(empty) body are degraded, as is a body whose stripped length is below
the minimum of 20 characters. -/
def isDegraded (c : Chapter) : Bool :=
  match c.body with
  | none => true
  | some s => s.isEmpty || s.trim.length < 20

/-- The synthetic body substituted at bot.py line 109 for a chapter that
is still degraded after the repair round. -/
def placeholderBody (c : Chapter) : String :=
  "<h1>Chapter " ++ toString c.id ++ "</h1><p><i>[Content Missing]</i></p>"

/-- The repair-round bound: bot.py lines 104-109 perform exactly one
re-fetch round (`app.crawler.download_chapters(failed)` is called once)
before converting the remaining failures to placeholders. -/
def REPAIR_ROUNDS : Nat := 1

/-- The single re-fetch round, bot.py line 107: `download_chapters(failed)`
re-fetches exactly the chapters of the degraded set, updating their bodies
in place. The network is abstracted as `fetch`, the result of one
re-download attempt (`none` when the attempt yields no body). -/
def refetchDegraded (fetch : Chapter → Option String) (chapters : List Chapter) :
    List Chapter :=
  chapters.map fun c => if isDegraded c then { c with body := fetch c } else c

/-- The whole repair pass of bot.py lines 104-109: compute the degraded
set; if it is nonempty, re-fetch exactly that set once, recompute the
degraded set, and give every chapter still degraded the placeholder body. -/
def repairPass (fetch : Chapter → Option String) (chapters : List Chapter) :
    List Chapter :=
  let failed := chapters.filter fun c => isDegraded c
  if failed.isEmpty then chapters
  else
    (refetchDegraded fetch chapters).map fun c =>
      if isDegraded c then { c with body := some (placeholderBody c) } else c

/-- The effect of the repair pass on one chapter: untouched when not
degraded; otherwise re-fetched once, and given the placeholder body when
still degraded after the re-fetch. -/
def repairChapter (fetch : Chapter → Option String) (c : Chapter) : Chapter :=
  if isDegraded c then
    let c1 : Chapter := { c with body := fetch c }
    if isDegraded c1 then { c1 with body := some (placeholderBody c1) } else c1
  else c

/-! ## Bind (spec-modelled) and the worker -/

/-- Modelled from the spec: `App.bind_books` lives in the lncrawl core,
which is not under `src/`. Per the spec (sections 4.2 and 6), `bind`
returns an Artifact or raises `BindError("no content")` exactly when zero
usable chapters exist, and a `placeholder` chapter still counts as
bindable; so a chapter is usable when its body is present. The artifact
is modelled as the bound chapter list itself. -/
def bindBooks (chapters : List Chapter) : Except String (List Chapter) :=
  if chapters.all fun c => c.body.isNone then Except.error "no content"
  else Except.ok chapters

/-- The chapter-processing tail of `scrape_logic_worker`
(bot.py lines 90-117): raise `No chapters extracted` when the crawler
produced an empty chapter list, otherwise run the repair pass and bind. -/
def scrapeWorker (fetch : Chapter → Option String) (crawlerChapters : List Chapter) :
    Except String (List Chapter) :=
  if crawlerChapters.isEmpty then Except.error "No chapters extracted"
  else bindBooks (repairPass fetch crawlerChapters)

/-! ## Delivery routing (`process_novel`, bot.py lines 494-533) -/

/-- `USERBOT_THRESHOLD = 40.0` (MB), bot.py line 49, in bytes. -/
def USERBOT_THRESHOLD_BYTES : Nat := 40 * 1048576

/-- The 50 MB primary-channel hard limit checked at bot.py line 522. -/
def TELEGRAM_LIMIT_BYTES : Nat := 50 * 1048576

/-- The terminal outcome of one delivery attempt in `process_novel`. -/
inductive RouteOutcome where
  /-- `bot.send_document` succeeded (bot.py lines 526-533). -/
  | primaryDelivered
  /-- `bot.send_document` raised; the exception escapes to the outer
  handler of `process_novel` (bot.py lines 542-553). -/
  | primaryRejected
  /-- the userbot (secondary relay) upload succeeded (lines 511-518). -/
  | userbotDelivered
  /-- the userbot upload raised (lines 519-520). -/
  | userbotUploadFailed
  /-- the file is at least 50 MB and no userbot is active (lines 522-524). -/
  | failedOversize
  deriving Repr, DecidableEq

/-- The routing decision of bot.py lines 508-533:
`if file_size_mb > USERBOT_THRESHOLD and self.userbot:` try the userbot;
`elif file_size_mb >= 50:` fail; else send through the primary channel.
`userbotSendOk` and `primarySendOk` abstract whether the respective
channel send raises. -/
def routeArtifact (sizeBytes : Nat) (userbotActive userbotSendOk primarySendOk : Bool) :
    RouteOutcome :=
  if sizeBytes > USERBOT_THRESHOLD_BYTES && userbotActive then
    if userbotSendOk then RouteOutcome.userbotDelivered
    else RouteOutcome.userbotUploadFailed
  else if sizeBytes ≥ TELEGRAM_LIMIT_BYTES then RouteOutcome.failedOversize
  else if primarySendOk then RouteOutcome.primaryDelivered
  else RouteOutcome.primaryRejected

/-! ## Job store (`NovelBot` state and its save/load helpers) -/

/-- The persistent job-store state of `NovelBot`: the in-memory sets and
map (`processed`, `errors`, `nullcon`, `genfail`) together with their
on-disk JSON mirrors. Sets are lists queried by membership. -/
structure BotState where
  processed : List String
  errors : List (String × String)
  nullcon : List String
  genfail : List String
  diskProcessed : List String
  diskErrors : List (String × String)
  diskNullcon : List String
  diskGenfail : List String
  deriving Repr, DecidableEq

/-- `NovelBot.save_success` (bot.py lines 224-239): add the url to
`processed`, delete it from `errors`, `nullcon` and `genfail`, then write
the processed, nullcon and genfail files. The errors file is not written
by this method. -/
def saveSuccess (st : BotState) (u : String) : BotState :=
  let processed := if st.processed.contains u then st.processed else u :: st.processed
  let errors := st.errors.filter fun p => p.1 != u
  let nullcon := st.nullcon.filter fun x => x != u
  let genfail := st.genfail.filter fun x => x != u
  { st with
    processed := processed, errors := errors, nullcon := nullcon, genfail := genfail,
    diskProcessed := processed, diskNullcon := nullcon, diskGenfail := genfail }

/-- `NovelBot.save_error` (bot.py lines 259-261): record the reason in the
errors map and write the errors file. -/
def saveError (st : BotState) (u msg : String) : BotState :=
  let errors := (u, msg) :: st.errors.filter fun p => p.1 != u
  { st with errors := errors, diskErrors := errors }

/-- The nullcon branch of `process_novel` (bot.py lines 546-549): add the
url to `nullcon` and write the nullcon file. -/
def addNullcon (st : BotState) (u : String) : BotState :=
  let nullcon := if st.nullcon.contains u then st.nullcon else u :: st.nullcon
  { st with nullcon := nullcon, diskNullcon := nullcon }

/-- The genfail branch of `process_novel` (bot.py lines 537-539): add the
url to `genfail` and write the genfail file. -/
def addGenfail (st : BotState) (u : String) : BotState :=
  let genfail := if st.genfail.contains u then st.genfail else u :: st.genfail
  { st with genfail := genfail, diskGenfail := genfail }

/-- The error-message keywords that route a worker exception to the
null-content list (bot.py line 546). -/
def nullconKeywords : List String :=
  ["list index out of range", "IndexError", "No chapters extracted", "No chapters found"]

/-- How a terminal job outcome is recorded by `process_novel`. -/
inductive JobRecord where
  /-- an artifact was produced and delivered; `save_success` ran. -/
  | completedOk
  /-- the worker raised with a null-content keyword; the url went to `nullcon`. -/
  | nullconRecorded
  /-- the worker returned no file; the url went to `genfail`. -/
  | genfailRecorded
  /-- any other exception: reported to the log group, nothing persisted. -/
  | loggedOnly
  deriving Repr, DecidableEq

/-- The exception classification of `process_novel` (bot.py lines 542-553):
a message containing one of the null-content keywords is recorded in
`nullcon`; anything else is only logged. -/
def classifyWorkerErr (msg : String) : JobRecord :=
  if nullconKeywords.any (fun k => containsSubstr msg k) then JobRecord.nullconRecorded
  else JobRecord.loggedOnly

/-- The job-store effect of the delivery block of `process_novel`
(bot.py lines 508-533 plus the outer handler at 542-553): a successful
send on either channel runs `save_success`; an oversize artifact with no
userbot runs `save_error`; a failed userbot upload is only logged; a
primary-channel rejection escapes to the outer handler, which adds the
url to `nullcon` when the message matches a null-content keyword and
otherwise only logs. -/
def deliverOutcomeState (st : BotState) (u : String) (sizeBytes : Nat)
    (userbotActive userbotSendOk primarySendOk : Bool) (primaryErrMsg : String) :
    BotState :=
  match routeArtifact sizeBytes userbotActive userbotSendOk primarySendOk with
  | RouteOutcome.primaryDelivered => saveSuccess st u
  | RouteOutcome.userbotDelivered => saveSuccess st u
  | RouteOutcome.userbotUploadFailed => st
  | RouteOutcome.failedOversize => saveError st u "File > 50MB & No Userbot"
  | RouteOutcome.primaryRejected =>
      match classifyWorkerErr primaryErrMsg with
      | JobRecord.nullconRecorded => addNullcon st u
      | _ => st

/-! ## Queue intake (`process_queue`, `post_init`, `cmd_reset`) -/

/-- The skip test of `process_queue` (bot.py line 443) and of the resume
filter in `post_init` (lines 325-330): a url already in `processed`,
`nullcon` or `genfail` is skipped. -/
def shouldSkip (st : BotState) (u : String) : Bool :=
  st.processed.contains u || st.nullcon.contains u || st.genfail.contains u

/-- The urls a submitted batch actually enqueues (bot.py lines 439-446). -/
def toProcess (st : BotState) (urls : List String) : List String :=
  urls.filter fun u => !(shouldSkip st u)

/-- The `skipped` counter of `process_queue` (bot.py lines 440-445). -/
def skippedCount (st : BotState) (urls : List String) : Nat :=
  (urls.filter fun u => shouldSkip st u).length

/-- `NovelBot.cmd_reset` (bot.py lines 401-408): clear `processed`,
`nullcon` and `genfail` and delete their files. The errors map and its
file are not touched. -/
def cmdReset (st : BotState) : BotState :=
  { st with
    processed := [], nullcon := [], genfail := [],
    diskProcessed := [], diskNullcon := [], diskGenfail := [] }

/-! ## FanMTL chapter discovery (`fanmtl.py`) -/

/-- One `ul.chapter-list li a` anchor as `parse_chapter_list` reads it:
`href` is the link target (`a["href"]`, raising when absent), `titleText`
the text of its `.chapter-title` child (raising when absent); either
exception makes the `except: pass` skip the anchor. -/
structure Anchor where
  href : Option String
  titleText : Option String
  deriving Repr, DecidableEq

/-- The loop body of `FanMTLCrawler.parse_chapter_list` (fanmtl.py lines
168-176): a successfully parsed anchor appends a chapter whose id is
`len(self.chapters) + 1` at the moment of the append; an anchor whose
href or `.chapter-title` is missing raises inside the `try` and is
skipped by the `except: pass`. -/
def parseChapterStep (acc : List Chapter) (a : Anchor) : List Chapter :=
  match a.href, a.titleText with
  | some h, some t =>
      acc ++ [{ id := acc.length + 1, volume := 1, url := h, title := t, body := none }]
  | _, _ => acc

/-- `FanMTLCrawler.parse_chapter_list` (fanmtl.py lines 166-176) on one
page, folded over the page's anchors. -/
def parseChapterList (chapters : List Chapter) (page : List Anchor) : List Chapter :=
  page.foldl parseChapterStep chapters

/-- The safe sort of fanmtl.py lines 149-152:
`self.chapters.sort(key=lambda x: ... x.id)`. -/
def sortById (chapters : List Chapter) : List Chapter :=
  chapters.mergeSort fun a b => a.id ≤ b.id

/-- The chapter list `read_novel_info` builds from the resolved
table-of-contents pages (in whatever order `resolve_futures` yields them),
then sorts by id. When there is no pagination, `pages` is the single
current page. -/
def tocChapters (pages : List (List Anchor)) : List Chapter :=
  sortById (pages.foldl parseChapterList [])

/-- The features of the fetched novel page that `read_novel_info`
inspects, with the pagination fetches abstracted into the resolved list
of table-of-contents pages. -/
structure NovelPage where
  /-- `soup.body.text` (empty when there is no body tag). -/
  bodyText : String
  /-- text of `h1.novel-title` when present. -/
  novelTitle : Option String
  /-- `content` of `meta[property="og:title"]` when present. -/
  metaTitle : Option String
  /-- text of `#readchapterbtn` when present. -/
  readBtnText : Option String
  /-- text of `.novel-info` or `.header-stats` when present. -/
  headerStatsText : Option String
  /-- the anchors of each resolved table-of-contents page. -/
  tocPages : List (List Anchor)
  /-- `str(soup)`, the raw page markup. -/
  rawHtml : String
  deriving Repr, DecidableEq

/-- The Cloudflare block keywords of fanmtl.py lines 32-35. -/
def blockKeywords : List String :=
  ["just a moment", "attention required", "verify you are human",
   "security check", "ray id", "enable javascript"]

/-- The explicit zero-chapter marker check of fanmtl.py lines 51-68:
check A reads the `#readchapterbtn` text, check B (taken only when check A
is negative, equivalent to the disjunction) the header stats text. -/
def hasZeroChapterMarker (p : NovelPage) : Bool :=
  (match p.readBtnText with
   | some t => containsSubstr (lowerString t) "no chapter"
   | none => false) ||
  (match p.headerStatsText with
   | some t => containsSubstr (lowerString t) "no chapters" || containsSubstr (lowerString t) "0 chapters"
   | none => false)

/-- The parse-failure message of fanmtl.py line 164. -/
def parseErrMsg : String :=
  "Parsing Error: Chapter list empty but \x27No Chapters\x27 indicator missing"

/-- `FanMTLCrawler.read_novel_info` (fanmtl.py lines 26-164) restricted to
what it returns or raises: block detection, title detection, the explicit
zero-chapter check (returning an empty list), chapter discovery over the
resolved pages with the id sort, and the final verification that an empty
list without a `no chapter` indicator in the raw markup is a parse error. -/
def readNovelInfo (p : NovelPage) : Except String (List Chapter) :=
  if blockKeywords.any (fun k => containsSubstr (lowerString p.bodyText) k) then
    Except.error "Cloudflare Blocked Request"
  else if p.novelTitle.isNone && p.metaTitle.isNone then
    Except.error "Failed to parse novel title - Possible Block or Layout Change"
  else if hasZeroChapterMarker p then
    Except.ok []
  else
    let chapters := tocChapters p.tocPages
    if chapters.isEmpty then
      if containsSubstr (lowerString p.rawHtml) "no chapter" then Except.ok []
      else Except.error parseErrMsg
    else Except.ok chapters

/-- One whole job as `scrape_logic_worker` runs it: `read_novel_info`
followed by the chapter-processing tail. -/
def runJob (p : NovelPage) (fetch : Chapter → Option String) :
    Except String (List Chapter) :=
  match readNovelInfo p with
  | Except.error e => Except.error e
  | Except.ok chs => scrapeWorker fetch chs

/-- The terminal record `process_novel` keeps for one job run
(bot.py lines 490-553), with the delivery abstracted away: a worker
exception is classified by its message; a produced artifact completes. -/
def jobOutcome (p : NovelPage) (fetch : Chapter → Option String) : JobRecord :=
  match runJob p fetch with
  | Except.ok _ => JobRecord.completedOk
  | Except.error e => classifyWorkerErr e

/-! ## Progress consumption loop (`process_novel`, bot.py lines 474-488) -/

/-- The supervising loop's mutable state: `last_text` (initially `""`) and
`last_update` (initially `0`). -/
structure LoopState where
  lastText : String
  lastUpdate : Nat
  deriving Repr, DecidableEq

/-- The loop of bot.py lines 477-488 run over the trace of polled events
(each event paired with the time it was polled), collecting the
forwarded events: a popped text is forwarded (and `last_text`,
`last_update` set) only when it differs from `last_text` and more than
5 seconds have passed since `last_update`; otherwise it is discarded,
having already been removed from the queue by `get_nowait`. Events still
unread when the worker future completes never enter this trace at all. -/
def runLoopFullAux (st : LoopState) : List (String × Nat) → List (String × Nat)
  | [] => []
  | e :: es =>
    if e.1 != st.lastText && 5 < e.2 - st.lastUpdate then
      e :: runLoopFullAux { lastText := e.1, lastUpdate := e.2 } es
    else runLoopFullAux st es

/-- The forwarded events of a whole run, from the initial state. -/
def runLoopFull (events : List (String × Nat)) : List (String × Nat) :=
  runLoopFullAux { lastText := "", lastUpdate := 0 } events

/-- The forwarded texts of a whole run. -/
def runLoop (events : List (String × Nat)) : List String :=
  (runLoopFull events).map Prod.fst

/-! ## Helper lemmas -/

/-- The empty job-store state. -/
def emptyBotState : BotState :=
  { processed := [], errors := [], nullcon := [], genfail := [],
    diskProcessed := [], diskErrors := [], diskNullcon := [], diskGenfail := [] }

/-- A store with one completed url. -/
def oneProcessedState : BotState :=
  { emptyBotState with processed := ["a"], diskProcessed := ["a"] }

/-- A store with one null-content url. -/
def oneNullconState : BotState :=
  { emptyBotState with nullcon := ["n"], diskNullcon := ["n"] }

theorem contains_filter_ne_self (l : List String) (u : String) :
    (l.filter fun x => x != u).contains u = false := by
  induction l with
  | nil => rfl
  | cons a l ih =>
    rw [List.filter_cons]
    by_cases ha : a = u
    · subst ha
      rw [if_neg (by simp)]
      exact ih
    · have hne : (a != u) = true := by simpa using ha
      rw [if_pos hne, List.contains_cons]
      have hua : (u == a) = false := by
        simpa using fun e => ha e.symm
      rw [hua, ih]
      rfl

theorem any_key_filter_ne (l : List (String × String)) (u : String) :
    ((l.filter fun p => p.1 != u).any fun p => p.1 == u) = false := by
  induction l with
  | nil => rfl
  | cons a l ih =>
    rw [List.filter_cons]
    by_cases ha : a.1 = u
    · rw [if_neg (by simp [ha])]
      exact ih
    · have hne : (a.1 != u) = true := by simpa using ha
      rw [if_pos hne, List.any_cons]
      have hua : (a.1 == u) = false := by simpa using ha
      rw [hua, ih]
      rfl

theorem contains_add_self (l : List String) (u : String) :
    (if l.contains u then l else u :: l).contains u = true := by
  cases h : l.contains u with
  | true => rw [if_pos rfl]; exact h
  | false =>
    rw [if_neg (by simp), List.contains_cons]
    simp

theorem contains_toProcess_of_skip (st : BotState) (urls : List String) (u : String)
    (hs : shouldSkip st u = true) :
    (toProcess st urls).contains u = false := by
  by_cases hmem : u ∈ toProcess st urls
  · have := (List.mem_filter.mp hmem).2
    rw [hs] at this
    simp at this
  · simpa using fun h => hmem (List.mem_of_elem_eq_true h)

theorem toProcess_cons_skip (st : BotState) (urls : List String) (u : String)
    (hs : shouldSkip st u = true) :
    toProcess st (u :: urls) = toProcess st urls := by
  unfold toProcess
  rw [List.filter_cons, hs]
  simp

theorem skippedCount_cons_skip (st : BotState) (urls : List String) (u : String)
    (hs : shouldSkip st u = true) :
    skippedCount st (u :: urls) = skippedCount st urls + 1 := by
  unfold skippedCount
  rw [List.filter_cons, hs]
  simp

theorem shouldSkip_cmdReset (st : BotState) (u : String) :
    shouldSkip (cmdReset st) u = false := rfl

theorem repairChapter_not_degraded (fetch : Chapter → Option String) (c : Chapter)
    (h : isDegraded c = false) :
    repairChapter fetch c = c := by
  unfold repairChapter
  rw [if_neg (by rw [h]; simp)]

theorem repairPass_eq_map (fetch : Chapter → Option String) (chs : List Chapter) :
    repairPass fetch chs = chs.map (repairChapter fetch) := by
  simp only [repairPass]
  split
  case isTrue hf =>
    have h0 : (chs.filter fun c => isDegraded c) = [] := List.isEmpty_iff.mp hf
    have hall : ∀ c ∈ chs, isDegraded c = false := by
      intro c hc
      have := List.filter_eq_nil_iff.mp h0 c hc
      simpa using this
    symm
    calc chs.map (repairChapter fetch)
        = chs.map id := by
          apply List.map_congr_left
          intro a ha
          exact repairChapter_not_degraded fetch a (hall a ha)
      _ = chs := List.map_id chs
  case isFalse hf =>
    unfold refetchDegraded
    rw [List.map_map]
    apply List.map_congr_left
    intro c _
    simp only [Function.comp_apply]
    by_cases hd : isDegraded c = true
    · rw [if_pos hd]
      unfold repairChapter
      rw [if_pos hd]
    · have hd0 : isDegraded c = false := by simpa using hd
      rw [if_neg hd, if_neg hd]
      exact (repairChapter_not_degraded fetch c hd0).symm

theorem repairChapter_body_isSome (fetch : Chapter → Option String) (c : Chapter) :
    (repairChapter fetch c).body.isSome = true := by
  unfold repairChapter
  by_cases hd : isDegraded c = true
  · rw [if_pos hd]
    by_cases h1 : isDegraded { c with body := fetch c } = true
    · rw [if_pos h1]
      rfl
    · rw [if_neg h1]
      show (fetch c).isSome = true
      cases hb : fetch c with
      | none =>
        exfalso
        apply h1
        show isDegraded { c with body := fetch c } = true
        unfold isDegraded
        rw [hb]
      | some s => rfl
  · have hd0 : isDegraded c = false := by simpa using hd
    rw [if_neg hd]
    show c.body.isSome = true
    cases hb : c.body with
    | none =>
      exfalso
      unfold isDegraded at hd0
      rw [hb] at hd0
      exact Bool.true_eq_false.mp hd0
    | some s => rfl

theorem repairPass_body_isSome (fetch : Chapter → Option String) (chs : List Chapter) :
    ∀ c ∈ repairPass fetch chs, c.body.isSome = true := by
  intro c hc
  rw [repairPass_eq_map] at hc
  obtain ⟨a, _, rfl⟩ := List.mem_map.mp hc
  exact repairChapter_body_isSome fetch a

theorem bindBooks_ok_of_some (chs : List Chapter) (h : chs ≠ [])
    (hb : ∀ c ∈ chs, c.body.isSome = true) :
    bindBooks chs = Except.ok chs := by
  unfold bindBooks
  rw [if_neg]
  intro hall
  cases chs with
  | nil => exact h rfl
  | cons a l =>
    have h1 := List.all_eq_true.mp hall a (List.mem_cons_self a l)
    have h2 := hb a (List.mem_cons_self a l)
    rw [Option.isNone_iff_eq_none.mp h1] at h2
    exact Bool.false_ne_true h2

theorem repairPass_ne_nil (fetch : Chapter → Option String) (chs : List Chapter)
    (h : chs ≠ []) :
    repairPass fetch chs ≠ [] := by
  rw [repairPass_eq_map]
  simpa [List.map_eq_nil_iff] using h

theorem scrapeWorker_ok (fetch : Chapter → Option String) (chs : List Chapter)
    (h : chs ≠ []) :
    scrapeWorker fetch chs = Except.ok (repairPass fetch chs) := by
  unfold scrapeWorker
  rw [if_neg (by simpa [List.isEmpty_iff] using h)]
  exact bindBooks_ok_of_some _ (repairPass_ne_nil fetch chs h)
    (repairPass_body_isSome fetch chs)

end LNsome

namespace LNsome

/-! ## Claim theorems: delivery routing and error recording -/

/-- Claim C1 counterexample: an artifact of `threshold + 1` bytes
(40 MB + 1 byte) with no userbot configured is routed to the primary
channel and delivered there, not marked Failed: the code only refuses
primary delivery at 50 MB and above. -/
theorem route_above_threshold_primary_attempt :
    41943041 > USERBOT_THRESHOLD_BYTES
  ∧ routeArtifact 41943041 false true true = RouteOutcome.primaryDelivered
  ∧ RouteOutcome.primaryDelivered ≠ RouteOutcome.failedOversize := by
  refine ⟨by decide, by decide, by decide⟩

/-- Claim C1 (amended): artifacts at or below the 40 MB threshold are
sent through the primary channel; above the threshold with an active
userbot the secondary relay is used (no primary attempt); above the
threshold without a userbot the job is failed without a primary attempt
only when the size is at or above the 50 MB hard limit, and otherwise the
artifact is still sent through the primary channel. -/
theorem route_size_routing (size : Nat) (ub uok pok : Bool) :
    (size ≤ USERBOT_THRESHOLD_BYTES →
      routeArtifact size ub uok pok =
        if pok then RouteOutcome.primaryDelivered else RouteOutcome.primaryRejected)
  ∧ (size > USERBOT_THRESHOLD_BYTES → ub = true →
      routeArtifact size ub uok pok =
        if uok then RouteOutcome.userbotDelivered else RouteOutcome.userbotUploadFailed)
  ∧ (size > USERBOT_THRESHOLD_BYTES → ub = false → size ≥ TELEGRAM_LIMIT_BYTES →
      routeArtifact size ub uok pok = RouteOutcome.failedOversize)
  ∧ (size > USERBOT_THRESHOLD_BYTES → ub = false → size < TELEGRAM_LIMIT_BYTES →
      routeArtifact size ub uok pok =
        if pok then RouteOutcome.primaryDelivered else RouteOutcome.primaryRejected) := by
  refine ⟨fun h => ?_, fun h hub => ?_, fun h hub hL => ?_, fun h hub hL => ?_⟩
  · have h1 : ¬ size > USERBOT_THRESHOLD_BYTES := by omega
    have h2 : ¬ size ≥ TELEGRAM_LIMIT_BYTES := by
      have : USERBOT_THRESHOLD_BYTES < TELEGRAM_LIMIT_BYTES := by decide
      omega
    simp [routeArtifact, h1, h2]
  · subst hub
    simp [routeArtifact, h]
  · subst hub
    simp [routeArtifact, hL]
  · subst hub
    have h2 : ¬ size ≥ TELEGRAM_LIMIT_BYTES := by omega
    simp [routeArtifact, h2]

/-- Claim C1 witness: a 1 MB artifact goes through the primary channel. -/
theorem route_size_routing_witness :
    routeArtifact 1048576 true true true = RouteOutcome.primaryDelivered :=
  (route_size_routing 1048576 true true true).1 (by decide)

/-- Claim C7 counterexample: a relay (userbot) upload failure on a 50 MB
artifact leaves the whole job store unchanged — in particular no
`Failed(reason)` is recorded in the persistent error map. -/
theorem relay_failure_not_recorded :
    deliverOutcomeState emptyBotState "job" 52428800 true false true "send failed"
      = emptyBotState
  ∧ emptyBotState.errors = []
  ∧ emptyBotState.diskErrors = [] := by
  refine ⟨by decide, rfl, rfl⟩

/-- Claim C7 (amended): of the delivery errors, only the size-limit case
(at least 50 MB with no userbot) is recorded against the job in the
persistent error map, with reason `File > 50MB & No Userbot`, and the map
is written to disk; a userbot (relay) upload failure leaves the store
unchanged, and a primary-channel rejection leaves the error map and its
file unchanged (it is only logged, or added to the null-content list when
its message carries a null-content keyword). -/
theorem delivery_error_recording (st : BotState) (u msg : String) (size : Nat)
    (ub uok pok : Bool) :
    (size ≥ TELEGRAM_LIMIT_BYTES → ub = false →
      (u, "File > 50MB & No Userbot") ∈ (deliverOutcomeState st u size ub uok pok msg).errors
      ∧ (deliverOutcomeState st u size ub uok pok msg).diskErrors =
          (deliverOutcomeState st u size ub uok pok msg).errors)
  ∧ (routeArtifact size ub uok pok = RouteOutcome.userbotUploadFailed →
      deliverOutcomeState st u size ub uok pok msg = st)
  ∧ (routeArtifact size ub uok pok = RouteOutcome.primaryRejected →
      (deliverOutcomeState st u size ub uok pok msg).errors = st.errors
      ∧ (deliverOutcomeState st u size ub uok pok msg).diskErrors = st.diskErrors) := by
  refine ⟨fun hL hub => ?_, fun hr => ?_, fun hr => ?_⟩
  · subst hub
    have hroute : routeArtifact size false uok pok = RouteOutcome.failedOversize := by
      simp [routeArtifact, hL]
    unfold deliverOutcomeState
    rw [hroute]
    exact ⟨List.mem_cons_self _ _, rfl⟩
  · unfold deliverOutcomeState
    rw [hr]
  · unfold deliverOutcomeState
    rw [hr]
    cases classifyWorkerErr msg <;> simp [addNullcon]

/-- Claim C7 witness: the amended statement at a 50 MB artifact with a
failing userbot, starting from the empty store. -/
theorem delivery_error_recording_witness :
    deliverOutcomeState emptyBotState "job2" 52428800 true false true "send failed"
      = emptyBotState :=
  (delivery_error_recording emptyBotState "job2" "send failed" 52428800 true false true).2.1
    (by decide)

/-! ## Claim theorems: queue dedupe -/

/-- Claim C3: a url already in the completed index contributes no new
pending entry when re-submitted: it is filtered out of the batch (never
re-processed), and counted as skipped rather than reported as an error. -/
theorem resubmit_completed_skipped (st : BotState) (urls : List String) (u : String)
    (h : st.processed.contains u = true) :
    (toProcess st urls).contains u = false
  ∧ toProcess st (u :: urls) = toProcess st urls
  ∧ skippedCount st (u :: urls) = skippedCount st urls + 1 := by
  have hs : shouldSkip st u = true := by
    unfold shouldSkip
    rw [h]
    rfl
  exact ⟨contains_toProcess_of_skip st urls u hs,
    toProcess_cons_skip st urls u hs,
    skippedCount_cons_skip st urls u hs⟩

/-- Claim C3 witness: re-submitting the completed url `a` in the batch
`[a, b]` adds nothing and is counted as skipped. -/
theorem resubmit_completed_skipped_witness :
    (toProcess oneProcessedState ["a", "b"]).contains "a" = false
  ∧ toProcess oneProcessedState ("a" :: ["a", "b"]) = toProcess oneProcessedState ["a", "b"]
  ∧ skippedCount oneProcessedState ("a" :: ["a", "b"])
      = skippedCount oneProcessedState ["a", "b"] + 1 :=
  resubmit_completed_skipped oneProcessedState ["a", "b"] "a" (by decide)

/-- Claim C9: a url recorded in the null-content list or the
generation-failure list is skipped exactly like a completed one — zero
new pending entries, counted as skipped — and after `cmd_reset` clears
those lists it is enqueued again. -/
theorem resubmit_failed_skipped (st : BotState) (urls : List String) (u : String)
    (h : st.nullcon.contains u = true ∨ st.genfail.contains u = true) :
    (toProcess st urls).contains u = false
  ∧ toProcess st (u :: urls) = toProcess st urls
  ∧ skippedCount st (u :: urls) = skippedCount st urls + 1
  ∧ toProcess (cmdReset st) (u :: urls) = u :: toProcess (cmdReset st) urls := by
  have hs : shouldSkip st u = true := by
    unfold shouldSkip
    rcases h with h | h
    · rw [h]; simp
    · rw [h]; simp
  refine ⟨contains_toProcess_of_skip st urls u hs,
    toProcess_cons_skip st urls u hs,
    skippedCount_cons_skip st urls u hs, ?_⟩
  unfold toProcess
  rw [List.filter_cons, shouldSkip_cmdReset]
  rfl

/-- Claim C9 witness: the null-content url `n` is skipped in the batch
`[n, b]` and re-enqueued after a reset. -/
theorem resubmit_failed_skipped_witness :
    (toProcess oneNullconState ["n", "b"]).contains "n" = false
  ∧ toProcess oneNullconState ("n" :: ["n", "b"]) = toProcess oneNullconState ["n", "b"]
  ∧ skippedCount oneNullconState ("n" :: ["n", "b"])
      = skippedCount oneNullconState ["n", "b"] + 1
  ∧ toProcess (cmdReset oneNullconState) ("n" :: ["n", "b"])
      = "n" :: toProcess (cmdReset oneNullconState) ["n", "b"] :=
  resubmit_failed_skipped oneNullconState ["n", "b"] "n" (Or.inl (by decide))

/-- Claim C10: `save_success` adds the url to the completed index,
removes it from the error map, the null-content list and the
generation-failure list, and persists the updated completed index and
both failure lists before returning, so the operation leaves no id both
completed and recorded as failed. -/
theorem save_success_consistency (st : BotState) (u : String) :
    (saveSuccess st u).processed.contains u = true
  ∧ ((saveSuccess st u).errors.any fun p => p.1 == u) = false
  ∧ (saveSuccess st u).nullcon.contains u = false
  ∧ (saveSuccess st u).genfail.contains u = false
  ∧ (saveSuccess st u).diskProcessed = (saveSuccess st u).processed
  ∧ (saveSuccess st u).diskNullcon = (saveSuccess st u).nullcon
  ∧ (saveSuccess st u).diskGenfail = (saveSuccess st u).genfail := by
  refine ⟨?_, ?_, ?_, ?_, rfl, rfl, rfl⟩
  · exact contains_add_self st.processed u
  · exact any_key_filter_ne st.errors u
  · exact contains_filter_ne_self st.nullcon u
  · exact contains_filter_ne_self st.genfail u

/-! ## Claim theorems: integrity repair and bind -/

/-- A chapter with no body, for concrete witnesses. -/
def chapterA : Chapter :=
  { id := 1, volume := 1, url := "u", title := "t", body := none }

/-- A chapter already carrying the synthetic placeholder body. -/
def placeholderChapterA : Chapter :=
  { id := 1, volume := 1, url := "u", title := "t",
    body := some "<h1>Chapter 1</h1><p><i>[Content Missing]</i></p>" }

/-- Claim C4: after the main fetch pass, exactly the degraded set (body
absent or stripped length below 20 characters) is re-fetched, within the
single configured repair round (`REPAIR_ROUNDS = 1`): the pass acts
chapter by chapter, leaving a non-degraded chapter untouched, keeping a
successful re-fetch, and substituting the synthetic placeholder body for
a chapter still degraded after the round; the repaired list always binds,
so the job proceeds to a bindable artifact instead of failing. -/
theorem integrity_repair_policy (fetch : Chapter → Option String) (chs : List Chapter) :
    repairPass fetch chs = chs.map (repairChapter fetch)
  ∧ (∀ c ∈ chs, isDegraded c = false → repairChapter fetch c = c)
  ∧ (∀ c ∈ chs, isDegraded c = true → isDegraded { c with body := fetch c } = false →
      repairChapter fetch c = { c with body := fetch c })
  ∧ (∀ c ∈ chs, isDegraded c = true → isDegraded { c with body := fetch c } = true →
      repairChapter fetch c = { c with body := some (placeholderBody c) })
  ∧ REPAIR_ROUNDS = 1
  ∧ (chs ≠ [] → bindBooks (repairPass fetch chs) = Except.ok (repairPass fetch chs)) := by
  refine ⟨repairPass_eq_map fetch chs, ?_, ?_, ?_, rfl, ?_⟩
  · intro c _ h
    exact repairChapter_not_degraded fetch c h
  · intro c _ hd h1
    have hne : ¬ (isDegraded { c with body := fetch c } = true) := by
      rw [h1]; simp
    unfold repairChapter
    rw [if_pos hd, if_neg hne]
  · intro c _ hd h1
    unfold repairChapter
    rw [if_pos hd, if_pos h1]
    rfl
  · intro h
    exact bindBooks_ok_of_some _ (repairPass_ne_nil fetch chs h)
      (repairPass_body_isSome fetch chs)

/-- Claim C4 witness: a single bodiless chapter, with every re-fetch
failing, is repaired to the placeholder and the result still binds. -/
theorem integrity_repair_policy_witness :
    bindBooks (repairPass (fun _ => none) [chapterA])
      = Except.ok (repairPass (fun _ => none) [chapterA]) :=
  (integrity_repair_policy (fun _ => none) [chapterA]).2.2.2.2.2 (List.cons_ne_nil _ _)

/-- Claim C5: the bind step errors with `no content` exactly when zero
usable chapters exist (a chapter is usable when its body is present); an
all-placeholder nonempty chapter list binds without raising; the worker
completes with an artifact on any nonempty chapter list; and the
artifact is then delivered — the job marked success — when its size is
within the threshold and the channel send succeeds. -/
theorem bind_placeholder_policy (chs : List Chapter) (fetch : Chapter → Option String)
    (st : BotState) (u : String) (size : Nat) (ub uok : Bool) (msg : String) :
    (bindBooks chs = Except.error "no content" ↔ ∀ c ∈ chs, c.body = none)
  ∧ ((∀ c ∈ chs, c.body = some (placeholderBody c)) → chs ≠ [] →
      bindBooks chs = Except.ok chs)
  ∧ (chs ≠ [] → scrapeWorker fetch chs = Except.ok (repairPass fetch chs))
  ∧ (size ≤ USERBOT_THRESHOLD_BYTES →
      (deliverOutcomeState st u size ub uok true msg).processed.contains u = true) := by
  refine ⟨?_, ?_, scrapeWorker_ok fetch chs, ?_⟩
  · unfold bindBooks
    by_cases hall : (chs.all fun c => c.body.isNone) = true
    · rw [if_pos hall]
      constructor
      · intro _ c hc
        exact Option.isNone_iff_eq_none.mp (List.all_eq_true.mp hall c hc)
      · intro _
        rfl
    · rw [if_neg hall]
      constructor
      · intro h
        exact Except.noConfusion h
      · intro hnone
        exfalso
        apply hall
        apply List.all_eq_true.mpr
        intro c hc
        rw [hnone c hc]
        rfl
  · intro hp hne
    apply bindBooks_ok_of_some chs hne
    intro c hc
    rw [hp c hc]
    rfl
  · intro hsz
    have h1 : ¬ size > USERBOT_THRESHOLD_BYTES := by omega
    have h2 : ¬ size ≥ TELEGRAM_LIMIT_BYTES := by
      have hTL : USERBOT_THRESHOLD_BYTES < TELEGRAM_LIMIT_BYTES := by decide
      omega
    have hroute : routeArtifact size ub uok true = RouteOutcome.primaryDelivered := by
      simp [routeArtifact, h1, h2]
    unfold deliverOutcomeState
    rw [hroute]
    exact contains_add_self st.processed u

/-- Claim C5 witness: the all-placeholder one-chapter list binds. -/
theorem bind_placeholder_policy_witness :
    bindBooks [placeholderChapterA] = Except.ok [placeholderChapterA] :=
  (bind_placeholder_policy [placeholderChapterA] (fun _ => none) emptyBotState "w" 0 false
    false "").2.1 (by decide) (by decide)

/-! ## Claim theorems: zero-chapter handling -/

/-- A fetched novel page whose read button carries the explicit
zero-chapter marker and whose chapter list is empty. -/
def zeroChapterPage : NovelPage :=
  { bodyText := "a zero chapter novel page",
    novelTitle := some "Some Novel",
    metaTitle := none,
    readBtnText := some "Read No chapter",
    headerStatsText := none,
    tocPages := [],
    rawHtml := "<html><body>No chapter</body></html>" }

/-- Claim C2 counterexample: on a page with the explicit zero-chapter
marker, the table-of-contents pass returns an empty list without a parse
failure, but the job does not complete without error: the worker raises
`No chapters extracted` and the run is recorded in the null-content
list, not completed. -/
theorem zero_marker_job_not_completed :
    readNovelInfo zeroChapterPage = Except.ok []
  ∧ jobOutcome zeroChapterPage (fun _ => none) = JobRecord.nullconRecorded
  ∧ JobRecord.nullconRecorded ≠ JobRecord.completedOk := by
  refine ⟨rfl, rfl, by decide⟩

/-- Claim C2 (amended): for every job whose table-of-contents pass yields
an empty chapter list: with the explicit zero-chapter marker the pass
itself succeeds (no parse failure is raised), but the job then fails with
`No chapters extracted` and is recorded in the null-content list rather
than completing; without the marker the distinct parse failure is raised
and the job fails, merely logged (no persistent record). -/
theorem empty_toc_outcomes (p : NovelPage) (fetch : Chapter → Option String) :
    (readNovelInfo p = Except.ok [] → jobOutcome p fetch = JobRecord.nullconRecorded)
  ∧ (readNovelInfo p = Except.error parseErrMsg →
      jobOutcome p fetch = JobRecord.loggedOnly) := by
  constructor
  · intro h
    unfold jobOutcome runJob
    rw [h]
    rfl
  · intro h
    unfold jobOutcome runJob
    rw [h]
    rfl

/-- Claim C2 witness: the amended statement at the marker page. -/
theorem empty_toc_outcomes_witness :
    jobOutcome zeroChapterPage (fun _ => none) = JobRecord.nullconRecorded :=
  (empty_toc_outcomes zeroChapterPage (fun _ => none)).1 rfl

/-! ## Claim theorems: progress channel -/

theorem runLoopFullAux_mem (st : LoopState) (events : List (String × Nat)) :
    ∀ e ∈ runLoopFullAux st events, e ∈ events := by
  induction events generalizing st with
  | nil =>
    intro e he
    simp [runLoopFullAux] at he
  | cons a es ih =>
    intro e he
    unfold runLoopFullAux at he
    split at he
    · rcases List.mem_cons.mp he with h | h
      · exact h ▸ List.mem_cons_self a es
      · exact List.mem_cons_of_mem a (ih _ e h)
    · exact List.mem_cons_of_mem a (ih _ e he)

theorem runLoopFullAux_chain (st : LoopState) (events : List (String × Nat)) :
    List.Chain' (fun p q : String × Nat => p.1 ≠ q.1 ∧ 5 < q.2 - p.2)
      (runLoopFullAux st events)
  ∧ (∀ f ∈ (runLoopFullAux st events).head?,
      f.1 ≠ st.lastText ∧ 5 < f.2 - st.lastUpdate) := by
  induction events generalizing st with
  | nil =>
    refine ⟨List.chain'_nil, ?_⟩
    intro f hf
    simp [runLoopFullAux] at hf
  | cons a es ih =>
    unfold runLoopFullAux
    split
    case isTrue hc =>
      have hca : a.1 ≠ st.lastText ∧ 5 < a.2 - st.lastUpdate := by
        simpa [bne_iff_ne] using hc
      constructor
      · rw [List.chain'_cons']
        refine ⟨?_, (ih { lastText := a.1, lastUpdate := a.2 }).1⟩
        intro y hy
        have hy2 := (ih { lastText := a.1, lastUpdate := a.2 }).2 y hy
        exact ⟨fun e => hy2.1 e.symm, hy2.2⟩
      · intro f hf
        obtain rfl : a = f := by simpa using hf
        exact hca
    case isFalse hc =>
      exact ih st

/-- Claim C8 counterexample: the final phase event of the trace, polled
3 seconds after the previous forwarded update, is popped and discarded
by the 5-second rate limiter — the final phase-completion event is
dropped before being forwarded. -/
theorem final_phase_event_dropped :
    runLoop [("Downloading 2 chapters...", 100), ("Binding...", 103)]
      = ["Downloading 2 chapters..."]
  ∧ (runLoop [("Downloading 2 chapters...", 100), ("Binding...", 103)]).contains
      "Binding..." = false := ⟨rfl, rfl⟩

/-- Claim C8 (amended): progress forwarding is best-effort and
rate-limited, with no special protection for phase-completion events:
every forwarded event is one of the polled events, and consecutive
forwarded events have different texts and are more than 5 seconds apart;
an event polled too soon after the last forwarded update (or equal to
its text) is discarded, and events never polled before the worker
finishes are dropped altogether. -/
theorem progress_rate_limit (events : List (String × Nat)) :
    (∀ e ∈ runLoopFull events, e ∈ events)
  ∧ List.Chain' (fun p q : String × Nat => p.1 ≠ q.1 ∧ 5 < q.2 - p.2)
      (runLoopFull events) :=
  ⟨runLoopFullAux_mem _ events, (runLoopFullAux_chain _ events).1⟩

/-- Claim C8 witness: a forwarded event is one of the polled events. -/
theorem progress_rate_limit_witness :
    ("Fetching info...", 10) ∈ [("Fetching info...", 10)] :=
  (progress_rate_limit [("Fetching info...", 10)]).1 ("Fetching info...", 10) (by decide)

/-! ## Claim theorems: chapter ordering -/

theorem parseChapterStep_ids (chs : List Chapter) (a : Anchor)
    (h : (chs.map fun c => c.id) = List.range' 1 chs.length) :
    ((parseChapterStep chs a).map fun c => c.id)
      = List.range' 1 (parseChapterStep chs a).length := by
  unfold parseChapterStep
  cases a.href with
  | none => exact h
  | some hv =>
    cases a.titleText with
    | none => exact h
    | some tv =>
      rw [List.map_append, h, List.length_append]
      simp [List.range'_concat, Nat.add_comm]

theorem parseChapterList_ids (page : List Anchor) :
    ∀ chs : List Chapter,
      (chs.map fun c => c.id) = List.range' 1 chs.length →
      ((parseChapterList chs page).map fun c => c.id)
        = List.range' 1 (parseChapterList chs page).length := by
  induction page with
  | nil =>
    intro chs h
    exact h
  | cons a rest ih =>
    intro chs h
    show ((List.foldl parseChapterStep (parseChapterStep chs a) rest).map fun c => c.id)
      = List.range' 1 (List.foldl parseChapterStep (parseChapterStep chs a) rest).length
    exact ih (parseChapterStep chs a) (parseChapterStep_ids chs a h)

theorem tocFold_ids (pages : List (List Anchor)) :
    ∀ chs : List Chapter,
      (chs.map fun c => c.id) = List.range' 1 chs.length →
      ((pages.foldl parseChapterList chs).map fun c => c.id)
        = List.range' 1 (pages.foldl parseChapterList chs).length := by
  induction pages with
  | nil =>
    intro chs h
    exact h
  | cons p rest ih =>
    intro chs h
    rw [List.foldl_cons]
    exact ih (parseChapterList chs p) (parseChapterList_ids p chs h)

/-- Claim C6: for any resolved table-of-contents pages, in whatever
completion order, the chapter list handed to the bind step is sorted by
its sequence number (`id`) and no two chapters share a sequence number. -/
theorem toc_sorted_unique (pages : List (List Anchor)) :
    List.Sorted (fun a b : Chapter => a.id ≤ b.id) (tocChapters pages)
  ∧ ((tocChapters pages).map fun c => c.id).Nodup := by
  have hids : ((pages.foldl parseChapterList []).map fun c => c.id)
      = List.range' 1 (pages.foldl parseChapterList []).length :=
    tocFold_ids pages [] rfl
  constructor
  · have htrans : ∀ a b c : Chapter, decide (a.id ≤ b.id) = true →
        decide (b.id ≤ c.id) = true → decide (a.id ≤ c.id) = true := by
      intro a b c hab hbc
      simp only [decide_eq_true_eq] at hab hbc ⊢
      omega
    have htotal : ∀ a b : Chapter,
        (decide (a.id ≤ b.id) || decide (b.id ≤ a.id)) = true := by
      intro a b
      simp [Nat.le_total]
    have hp := List.sorted_mergeSort htrans htotal (pages.foldl parseChapterList [])
    exact List.Pairwise.imp (fun h => by simpa using h) hp
  · have hperm : (tocChapters pages).Perm (pages.foldl parseChapterList []) :=
      List.mergeSort_perm _ _
    rw [List.Perm.nodup_iff (hperm.map fun c => c.id), hids]
    exact List.nodup_range' 1 _

/-- Claim C6 witness: the sortedness conclusion at one concrete
two-anchor page. -/
theorem toc_sorted_unique_witness :
    List.Sorted (fun a b : Chapter => a.id ≤ b.id)
      (tocChapters [[{ href := some "c1", titleText := some "Chapter 1" },
                     { href := some "c2", titleText := some "Chapter 2" }]]) :=
  (toc_sorted_unique [[{ href := some "c1", titleText := some "Chapter 1" },
                       { href := some "c2", titleText := some "Chapter 2" }]]).1

end LNsome
